import Mathlib

/-!
Shallow embedding of the two polling scripts of this repository
(`monitor.py`, a Shoe Palace product monitor, and `scraper.py`, a JD Sports
image scraper) and proofs of the specification claims about them.

Python dictionaries built by the normalizer are modelled as insertion-ordered
association lists with an insert-or-overwrite operation; Python `dict.get`
with a default is modelled by `dictGet`; Python truthiness of strings and
lists is modelled as non-emptiness; `d.get(key, default)` on raw JSON records
is modelled by `Option.getD` on optional fields.  External effects (HTTP,
MongoDB, Discord delivery) are modelled by explicit outcome values passed to
the embedded functions, and the store is an explicit list of documents.
-/

namespace Monitor

/-- One entry of the `images` array of a raw product: a JSON object whose
`src` field may be absent. -/
structure RawImage where
  src : Option String
deriving DecidableEq

/-- One entry of the `variants` array of a raw product: `title`, `id` and
`price` fields may each be absent. -/
structure RawVariant where
  title : Option String
  id : Option String
  price : Option String
deriving DecidableEq

/-- A raw product record as fetched from the `products.json` feed; every
field the monitor reads may be absent. -/
structure RawProduct where
  id : Option Nat
  handle : Option String
  title : Option String
  images : List RawImage
  variants : List RawVariant
deriving DecidableEq

/-- The canonical item dictionary returned by `extract_product_data`
(monitor.py lines 69-77). -/
structure ProductData where
  id : Option Nat
  url : String
  image : String
  title : String
  price : String
  sizes : List String
  atc_links : List (String × String)
deriving DecidableEq

/-- Python `size.replace(".", "_")` for the single-character pattern `"."`:
each character `.` of the string is replaced by `_` (monitor.py line 66). -/
def sanitize (s : String) : String :=
  ⟨s.data.map (fun c => if c = '.' then '_' else c)⟩

/-- The fixed add-to-cart URL template applied to a variant identifier
(monitor.py line 67). -/
def cartLink (vid : String) : String :=
  "https://shoepalace.com/cart/" ++ vid ++ ":1"

/-- Python `dict` assignment `m[k] = v`: overwrite in place if the key is
present, otherwise append at the end (insertion order preserved). -/
def dictInsert (m : List (String × String)) (k v : String) : List (String × String) :=
  if (m.map Prod.fst).contains k then
    m.map (fun p => if p.1 = k then (k, v) else p)
  else
    m ++ [(k, v)]

/-- Python `m.get(k)` returning the value when present. -/
def dictFind (m : List (String × String)) (k : String) : Option String :=
  (m.find? (fun p => p.1 == k)).map Prod.snd

/-- Python `m.get(k, fallback)`. -/
def dictGet (m : List (String × String)) (k fallback : String) : String :=
  match dictFind m k with
  | some v => v
  | none => fallback

/-- The variant loop of `extract_product_data` (monitor.py lines 60-67):
for each variant, read `title` and `id` with default `""`; when both are
non-empty (Python truthiness), append the size and record the add-to-cart
link under the sanitized size; otherwise skip the variant. -/
def variantLoop : List RawVariant → List String → List (String × String) →
    List String × List (String × String)
  | [], sizes, atc_links => (sizes, atc_links)
  | v :: rest, sizes, atc_links =>
    let size := v.title.getD ""
    let variant_id := v.id.getD ""
    if size ≠ "" ∧ variant_id ≠ "" then
      variantLoop rest (sizes ++ [size])
        (dictInsert atc_links (sanitize size) (cartLink variant_id))
    else
      variantLoop rest sizes atc_links

/-- `extract_product_data` (monitor.py lines 48-77): normalize a raw product
record into the canonical dictionary, with empty-string/list defaults for
absent data. -/
def extract_product_data (product : RawProduct) : ProductData :=
  let image_url : String :=
    match product.images with
    | [] => ""
    | img :: _ => img.src.getD ""
  let sa := variantLoop product.variants [] []
  { id := product.id
    url := "https://shoepalace.com/products/" ++ product.handle.getD ""
    image := image_url
    title := product.title.getD ""
    price :=
      match product.variants with
      | [] => "0.00"
      | v :: _ => v.price.getD "0.00"
    sizes := sa.1
    atc_links := sa.2 }

/-- `save_to_database` (monitor.py lines 79-95): `find_one` on the `id`
field, insert when absent and report `True`, otherwise report `False` and
leave the collection unchanged.  The store is the explicit list of inserted
documents, in insertion order. -/
def save_to_database (collection : List ProductData) (product_data : ProductData) :
    Bool × List ProductData :=
  match collection.find? (fun d => d.id == product_data.id) with
  | none => (true, collection ++ [product_data])
  | some _ => (false, collection)

/-- The `DISCORD_WEBHOOK_URL` configuration constant exactly as shipped
(monitor.py line 17). -/
def DISCORD_WEBHOOK_URL : String :=
  "https://discord.com/api/webhooks/YOUR_WEBHOOK_ID/YOUR_WEBHOOK_TOKEN"

/-- The three-column split of the sizes list inside
`send_discord_notification` (monitor.py lines 110-143): first column
`(n+2)//3` entries, second `(n+1)//3`, third the rest; empty columns when
there are no sizes. -/
def colSplit (sizes : List String) : List String × List String × List String :=
  if sizes.isEmpty then ([], [], [])
  else
    let total_sizes := sizes.length
    let col1_size := (total_sizes + 2) / 3
    let col2_size := (total_sizes + 1) / 3
    (sizes.take (min col1_size total_sizes),
     (sizes.drop col1_size).take (min (col1_size + col2_size) total_sizes - col1_size),
     sizes.drop (col1_size + col2_size))

/-- One rendered size entry `[{size} US]({link})`, the link looked up in
`atc_links` under the sanitized size with the product URL as fallback
(monitor.py lines 122-125). -/
def renderSizeEntry (atc_links : List (String × String)) (url size : String) : String :=
  "[" ++ size ++ " US](" ++ dictGet atc_links (sanitize size) url ++ ")"

/-- How the body of the `try` block of `send_discord_notification` can go:
the embed construction raises, `webhook.execute()` raises, or everything
succeeds. -/
inductive BodyEvent where
  | constructionFails (msg : String)
  | deliveryFails (msg : String)
  | allOk
deriving DecidableEq

/-- Observable outcome of one `send_discord_notification` call. -/
inductive NotifyOutcome where
  | skipped
  | sent
  | loggedError (msg : String)
deriving DecidableEq

/-- Result of one `send_discord_notification` call: its outcome, how many
times `webhook.execute()` was invoked, and the exception it let escape to
the caller, if any. -/
structure NotifyResult where
  outcome : NotifyOutcome
  executeCalls : Nat
  propagated : Option String
deriving DecidableEq

/-- The `try` body of `send_discord_notification` (monitor.py lines
103-167): number of `webhook.execute()` calls performed and the exception
raised, if any.  A construction failure happens before `execute`; a delivery
failure happens during the single `execute` call. -/
def notifyBody : BodyEvent → Nat × Option String
  | .constructionFails m => (0, some m)
  | .deliveryFails m => (1, some m)
  | .allOk => (1, none)

/-- `send_discord_notification` (monitor.py lines 97-170): skip when the
webhook URL equals the guard placeholder, otherwise run the body under
`try`/`except Exception`, logging any failure and never re-raising. -/
def send_discord_notification (url : String) (ev : BodyEvent) : NotifyResult :=
  if url = "YOUR_DISCORD_WEBHOOK_URL_HERE" then
    { outcome := .skipped, executeCalls := 0, propagated := none }
  else
    match notifyBody ev with
    | (execs, none) => { outcome := .sent, executeCalls := execs, propagated := none }
    | (execs, some e) => { outcome := .loggedError e, executeCalls := execs, propagated := none }

/-- Outcome of the fetch step of one cycle of the loop in `main`: a product
list with a status code, an exception raised by the fetch, or an operator
`KeyboardInterrupt`. -/
inductive FetchEvent where
  | ok (products : List RawProduct) (status : Nat)
  | raisesExn
  | keyboardInterrupt
deriving DecidableEq

/-- The per-product processing of one cycle (monitor.py lines 194-201):
extract, save, count the new ones. -/
def processProducts : List ProductData → List RawProduct → List ProductData × Nat
  | collection, [] => (collection, 0)
  | collection, p :: rest =>
    let product_data := extract_product_data p
    let r := save_to_database collection product_data
    let t := processProducts r.2 rest
    (t.1, (if r.1 then 1 else 0) + t.2)

/-- Observable result of one cycle of the `while True` loop in `main`. -/
structure CycleResult where
  continues : Bool
  slept : Bool
  store : List ProductData
  newCount : Nat
deriving DecidableEq

/-- One cycle of the loop in `main` (monitor.py lines 184-218): a
`KeyboardInterrupt` breaks the loop; any other exception is caught, logged
and followed by the fixed-delay sleep; an empty product list sleeps and
continues; otherwise every product is processed and the cycle ends with the
fixed-delay sleep. -/
def cycleStep (collection : List ProductData) (ev : FetchEvent) : CycleResult :=
  match ev with
  | .keyboardInterrupt =>
    { continues := false, slept := false, store := collection, newCount := 0 }
  | .raisesExn =>
    { continues := true, slept := true, store := collection, newCount := 0 }
  | .ok products _ =>
    if products.isEmpty then
      { continues := true, slept := true, store := collection, newCount := 0 }
    else
      let r := processProducts collection products
      { continues := true, slept := true, store := r.1, newCount := r.2 }

end Monitor

namespace Scraper

/-- `STARTING_ID` (scraper.py line 21). -/
def STARTING_ID : Nat := 773220

/-- `ENDING_ID` (scraper.py line 22). -/
def ENDING_ID : Nat := 773230

/-- The cursor update at the end of one cycle of the loop in `main` (scraper.py
lines 149-155): increment, and wrap back to `STARTING_ID` once the id
exceeds `ENDING_ID`. -/
def nextId (current_id : Nat) : Nat :=
  if ENDING_ID < current_id + 1 then STARTING_ID else current_id + 1

/-- The id processed in the k-th cycle of the loop, starting from
`STARTING_ID` (scraper.py line 127). -/
def cursorAt : Nat → Nat
  | 0 => STARTING_ID
  | k + 1 => nextId (cursorAt k)

/-- An HTTP response as `fetch_image` observes it: status code and the
optional `content-type` header. -/
structure HttpResp where
  status : Nat
  contentType : Option String
deriving DecidableEq

/-- Outcome of the `requests.get` call inside `fetch_image`: a response, or
a raised exception. -/
inductive FetchAttempt where
  | success (r : HttpResp)
  | raisesExn
deriving DecidableEq

/-- Python `needle in hay` on lists of characters: `needle` occurs
contiguously in `hay`. -/
def pyInChars (needle : List Char) : List Char → Bool
  | [] => needle.isEmpty
  | c :: rest => needle.isPrefixOf (c :: rest) || pyInChars needle rest

/-- Python substring test `needle in hay` on strings. -/
def pyIn (needle hay : String) : Bool :=
  pyInChars needle.data hay.data

/-- `fetch_image` (scraper.py lines 46-60): return `(response, status)` when
the status is 200 and the `content-type` header (default `""`) contains
`"image"`; `(None, status)` otherwise; `(None, 0)` when the request raised. -/
def fetch_image : FetchAttempt → Option HttpResp × Nat
  | .success r =>
    if r.status = 200 ∧ pyIn "image" (r.contentType.getD "") = true then
      (some r, r.status)
    else
      (none, r.status)
  | .raisesExn => (none, 0)

end Scraper

open Monitor Scraper

/-- Claim C1: with an id not present in the store, `save_to_database` returns
`True` and appends exactly that item; afterwards, any call on a store
containing the item with the same id returns `False` and leaves the store
unchanged. -/
theorem save_to_database_dedup (store : List ProductData) (item : ProductData)
    (h : ∀ d ∈ store, d.id ≠ item.id) :
    save_to_database store item = (true, store ++ [item]) ∧
    ∀ (store2 : List ProductData) (item2 : ProductData),
      item2.id = item.id → item ∈ store2 →
      save_to_database store2 item2 = (false, store2) := by
  constructor
  · have hnone : store.find? (fun d => d.id == item.id) = none := by
      rw [List.find?_eq_none]
      intro d hd
      simpa using h d hd
    simp [save_to_database, hnone]
  · intro store2 item2 h2 hmem
    have hsome : (store2.find? (fun d => d.id == item2.id)).isSome := by
      rw [List.find?_isSome]
      exact ⟨item, hmem, by simp [h2]⟩
    obtain ⟨d, hd⟩ := Option.isSome_iff_exists.mp hsome
    simp [save_to_database, hd]

/-- Witness for C1 at a concrete store and item. -/
theorem save_to_database_dedup_witness :
    (save_to_database []
        { id := some 5, url := "u", image := "", title := "t", price := "0.00",
          sizes := [], atc_links := [] }).1 = true :=
  by
  have h := save_to_database_dedup []
      { id := some 5, url := "u", image := "", title := "t", price := "0.00",
        sizes := [], atc_links := [] }
      (by intro d hd; cases hd)
  rw [h.1]

/-- Claim C2, evaluated on the code: the configuration guard of `send_discord_notification`
compares the webhook URL against a placeholder string that differs from the
shipped value of `DISCORD_WEBHOOK_URL`, so with the constant left at its
shipped placeholder the guard does not fire and `webhook.execute()` is
invoked once. -/
theorem discord_guard_never_fires :
    Monitor.DISCORD_WEBHOOK_URL ≠ "YOUR_DISCORD_WEBHOOK_URL_HERE" ∧
    (send_discord_notification Monitor.DISCORD_WEBHOOK_URL .allOk).executeCalls = 1 := by
  constructor
  · decide
  · rfl

/-- Claim C3: one loop cycle terminates the loop exactly on `KeyboardInterrupt`;
a cycle whose fetch raises still reaches the fixed-delay sleep, continues
the loop and leaves the store so that the next cycle proceeds normally. -/
theorem cycle_fault_isolation (st : List ProductData) (ev : FetchEvent) :
    ((cycleStep st ev).continues = false ↔ ev = FetchEvent.keyboardInterrupt) ∧
    (ev = FetchEvent.raisesExn →
      (cycleStep st ev).slept = true ∧
      (cycleStep st ev).continues = true ∧
      (cycleStep st ev).store = st) := by
  cases ev with
  | ok products status =>
    simp only [cycleStep]
    split <;> simp
  | raisesExn => simp [cycleStep]
  | keyboardInterrupt => simp [cycleStep]

/-- Witness for C3: a concrete cycle whose fetch raises sleeps. -/
theorem cycle_fault_isolation_witness :
    (cycleStep [] FetchEvent.raisesExn).slept = true :=
  ((cycle_fault_isolation [] FetchEvent.raisesExn).2 rfl).1

/-- Claim C6: a raw product with no images and no variants normalizes to empty
defaults: empty image string, empty sizes list, empty add-to-cart map. -/
theorem extract_empty_defaults (p : RawProduct)
    (h1 : p.images = []) (h2 : p.variants = []) :
    (extract_product_data p).image = "" ∧
    (extract_product_data p).sizes = [] ∧
    (extract_product_data p).atc_links = [] := by
  simp [extract_product_data, h1, h2, variantLoop]

/-- Witness for C6 at a concrete bare product record. -/
theorem extract_empty_defaults_witness :
    (extract_product_data
        { id := some 42, handle := none, title := none, images := [], variants := [] }).image = "" ∧
    (extract_product_data
        { id := some 42, handle := none, title := none, images := [], variants := [] }).sizes = [] ∧
    (extract_product_data
        { id := some 42, handle := none, title := none, images := [], variants := [] }).atc_links = [] :=
  extract_empty_defaults _ rfl rfl

/-- Claim C9: `send_discord_notification` never lets an exception escape to its
caller, for every webhook URL and every behaviour of the message
construction and delivery, and it never calls `webhook.execute()` more than
once (no retry). -/
theorem notify_never_raises (url : String) (ev : BodyEvent) :
    (send_discord_notification url ev).propagated = none ∧
    (send_discord_notification url ev).executeCalls ≤ 1 := by
  unfold send_discord_notification notifyBody
  cases ev <;> split <;> simp

/-- The probe cursor position as a closed form: start plus cycle count
modulo the range width. -/
theorem cursorAt_mod (k : Nat) : cursorAt k = STARTING_ID + k % 11 := by
  induction k with
  | zero => rfl
  | succ n ih =>
    show nextId (cursorAt n) = STARTING_ID + (n + 1) % 11
    rw [ih]
    unfold nextId STARTING_ID ENDING_ID
    split <;> omega

/-- Claim C7: the probe cursor always stays within `[STARTING_ID, ENDING_ID]`,
wraps from `ENDING_ID` back to `STARTING_ID`, and one full sweep visits
exactly the 11 distinct ids `773220..773230` before returning to the
start. -/
theorem probe_cursor_sweep :
    (∀ k, STARTING_ID ≤ cursorAt k ∧ cursorAt k ≤ ENDING_ID) ∧
    nextId ENDING_ID = STARTING_ID ∧
    (List.range 11).map cursorAt =
      [773220, 773221, 773222, 773223, 773224, 773225,
       773226, 773227, 773228, 773229, 773230] ∧
    ((List.range 11).map cursorAt).Nodup ∧
    cursorAt 11 = STARTING_ID := by
  refine ⟨?_, by decide, by decide, by decide, by decide⟩
  intro k
  rw [cursorAt_mod]
  unfold STARTING_ID ENDING_ID
  omega

/-- Claim C8: `fetch_image` reports success exactly when the response has status
200 and an image content type; any other response yields `(None, status)`,
and a raised exception yields `(None, 0)` — never a propagated error. -/
theorem fetch_image_success_iff (r : HttpResp) :
    ((fetch_image (.success r)).1.isSome ↔
      (r.status = 200 ∧ pyIn "image" (r.contentType.getD "") = true)) ∧
    (r.status = 200 ∧ pyIn "image" (r.contentType.getD "") = true →
      fetch_image (.success r) = (some r, r.status)) ∧
    (¬ (r.status = 200 ∧ pyIn "image" (r.contentType.getD "") = true) →
      fetch_image (.success r) = (none, r.status)) ∧
    fetch_image .raisesExn = (none, 0) := by
  refine ⟨?_, ?_, ?_, rfl⟩
  · simp only [fetch_image]
    split <;> simp_all
  · intro h; simp only [fetch_image]; rw [if_pos h]
  · intro h; simp only [fetch_image]; rw [if_neg h]

/-- Witness for C8 at concrete responses: a 200 image response succeeds, a
404 response fails with its status. -/
theorem fetch_image_success_iff_witness :
    fetch_image (.success { status := 200, contentType := some "image/jpeg" }) =
      (some { status := 200, contentType := some "image/jpeg" }, 200) ∧
    fetch_image (.success { status := 404, contentType := some "text/html" }) =
      (none, 404) :=
  ⟨(fetch_image_success_iff { status := 200, contentType := some "image/jpeg" }).2.1
      (by constructor <;> rfl),
   (fetch_image_success_iff { status := 404, contentType := some "text/html" }).2.2.1
      (by intro h; exact absurd h.1 (by decide))⟩

/-- On a non-empty sizes list the `min` guards of the column split are
inactive and the three columns are plain take/drop slices. -/
theorem colSplit_eq_of_ne_nil (sizes : List String) (h : sizes ≠ []) :
    colSplit sizes =
      (sizes.take ((sizes.length + 2) / 3),
       (sizes.drop ((sizes.length + 2) / 3)).take ((sizes.length + 1) / 3),
       sizes.drop ((sizes.length + 2) / 3 + (sizes.length + 1) / 3)) := by
  have hn : 1 ≤ sizes.length := List.length_pos.mpr h
  have hne : ¬ (sizes.isEmpty = true) := by simp [List.isEmpty_iff, h]
  have h1 : min ((sizes.length + 2) / 3) sizes.length = (sizes.length + 2) / 3 := by omega
  have h2 : min ((sizes.length + 2) / 3 + (sizes.length + 1) / 3) sizes.length =
      (sizes.length + 2) / 3 + (sizes.length + 1) / 3 := by omega
  unfold colSplit
  rw [if_neg hne]
  dsimp only
  rw [h1, h2, Nat.add_sub_cancel_left]

/-- Claim C4: the three-column split of the sizes list in the notifier concatenates
back to the input (order preserved), the three lengths sum to the input
length, and a 7-entry list splits 3/2/2. -/
theorem notify_three_way_split (sizes : List String) :
    (colSplit sizes).1 ++ (colSplit sizes).2.1 ++ (colSplit sizes).2.2 = sizes ∧
    (colSplit sizes).1.length + (colSplit sizes).2.1.length +
      (colSplit sizes).2.2.length = sizes.length ∧
    (sizes.length = 7 →
      (colSplit sizes).1.length = 3 ∧ (colSplit sizes).2.1.length = 2 ∧
      (colSplit sizes).2.2.length = 2) := by
  rcases eq_or_ne sizes [] with rfl | h
  · refine ⟨rfl, rfl, ?_⟩
    intro h7
    cases h7
  · rw [colSplit_eq_of_ne_nil sizes h]
    have hn : 1 ≤ sizes.length := List.length_pos.mpr h
    refine ⟨?_, ?_, ?_⟩
    · have hdd : sizes.drop ((sizes.length + 2) / 3 + (sizes.length + 1) / 3) =
          (sizes.drop ((sizes.length + 2) / 3)).drop ((sizes.length + 1) / 3) := by
        rw [List.drop_drop, Nat.add_comm]
      rw [List.append_assoc, hdd, List.take_append_drop, List.take_append_drop]
    · simp only [List.length_take, List.length_drop]
      omega
    · intro h7
      simp only [List.length_take, List.length_drop]
      omega

/-- Witness for C4: a concrete 7-entry sizes list splits into columns of
sizes 3, 2 and 2. -/
theorem notify_three_way_split_witness :
    (colSplit ["8", "8.5", "9", "9.5", "10", "10.5", "11"]).1.length = 3 ∧
    (colSplit ["8", "8.5", "9", "9.5", "10", "10.5", "11"]).2.1.length = 2 ∧
    (colSplit ["8", "8.5", "9", "9.5", "10", "10.5", "11"]).2.2.length = 2 :=
  (notify_three_way_split ["8", "8.5", "9", "9.5", "10", "10.5", "11"]).2.2 rfl

/-- Unfolding of the variant loop at a kept variant (non-empty title and
id). -/
theorem variantLoop_cons_keep (v : RawVariant) (rest : List RawVariant)
    (sizes : List String) (atc_links : List (String × String))
    (h1 : v.title.getD "" ≠ "") (h2 : v.id.getD "" ≠ "") :
    variantLoop (v :: rest) sizes atc_links =
      variantLoop rest (sizes ++ [v.title.getD ""])
        (dictInsert atc_links (sanitize (v.title.getD "")) (cartLink (v.id.getD ""))) := by
  simp only [variantLoop]
  rw [if_pos ⟨h1, h2⟩]

/-- Unfolding of the variant loop at a skipped variant (empty title or
id). -/
theorem variantLoop_cons_skip (v : RawVariant) (rest : List RawVariant)
    (sizes : List String) (atc_links : List (String × String))
    (h : ¬ (v.title.getD "" ≠ "" ∧ v.id.getD "" ≠ "")) :
    variantLoop (v :: rest) sizes atc_links = variantLoop rest sizes atc_links := by
  simp only [variantLoop]
  rw [if_neg h]

/-- Claim C5: a variant with non-empty label and identifier is recorded with the
dot-free sanitized label as key and the fixed cart-URL template applied to
its identifier as link; sanitization removes every dot (`"10.5"` becomes
`"10_5"`); a variant missing its label or identifier is skipped. -/
theorem variant_normalization :
    (∀ (v : RawVariant) (rest : List RawVariant) (sizes : List String)
        (atc_links : List (String × String)),
      v.title.getD "" ≠ "" → v.id.getD "" ≠ "" →
      variantLoop (v :: rest) sizes atc_links =
        variantLoop rest (sizes ++ [v.title.getD ""])
          (dictInsert atc_links (sanitize (v.title.getD ""))
            (cartLink (v.id.getD "")))) ∧
    (∀ vid : String, cartLink vid = "https://shoepalace.com/cart/" ++ vid ++ ":1") ∧
    (∀ s : String, '.' ∉ (sanitize s).data) ∧
    sanitize "10.5" = "10_5" ∧
    (∀ (v : RawVariant) (rest : List RawVariant) (sizes : List String)
        (atc_links : List (String × String)),
      v.title.getD "" = "" ∨ v.id.getD "" = "" →
      variantLoop (v :: rest) sizes atc_links = variantLoop rest sizes atc_links) := by
  refine ⟨variantLoop_cons_keep, fun vid => rfl, ?_, rfl, ?_⟩
  · intro s hc
    have hd : (sanitize s).data = s.data.map (fun c => if c = '.' then '_' else c) := rfl
    rw [hd] at hc
    obtain ⟨c, _, hfc⟩ := List.mem_map.mp hc
    by_cases h : c = '.'
    · rw [if_pos h] at hfc
      exact absurd hfc (by decide)
    · rw [if_neg h] at hfc
      exact h hfc
  · intro v rest sizes atc_links h
    refine variantLoop_cons_skip v rest sizes atc_links ?_
    rintro ⟨ha, hb⟩
    rcases h with h | h
    · exact ha h
    · exact hb h

/-- Witness for C5 at a concrete variant with label `10.5`. -/
theorem variant_normalization_witness :
    variantLoop [{ title := some "10.5", id := some "123", price := none }] [] [] =
      variantLoop [] ([] ++ ["10.5"]) (dictInsert [] (sanitize "10.5") (cartLink "123")) ∧
    sanitize "10.5" = "10_5" :=
  ⟨variant_normalization.1 { title := some "10.5", id := some "123", price := none } [] [] []
      (by decide) (by decide),
   variant_normalization.2.2.2.1⟩

/-- Keys of the association map after a dict assignment: unchanged when the
key was present (overwrite in place), appended otherwise. -/
theorem dictInsert_keys (m : List (String × String)) (k v : String) :
    (dictInsert m k v).map Prod.fst =
      if (m.map Prod.fst).contains k then m.map Prod.fst
      else m.map Prod.fst ++ [k] := by
  unfold dictInsert
  split
  · rw [List.map_map]
    refine List.map_congr_left ?_
    intro p _
    by_cases hp : p.1 = k <;> simp [hp]
  · simp

/-- A key present in the map stays present after any dict assignment. -/
theorem mem_keys_dictInsert_of_mem (m : List (String × String)) (k v a : String)
    (h : a ∈ m.map Prod.fst) : a ∈ (dictInsert m k v).map Prod.fst := by
  rw [dictInsert_keys]
  split
  · exact h
  · exact List.mem_append_left _ h

/-- The assigned key is present after a dict assignment. -/
theorem mem_keys_dictInsert_self (m : List (String × String)) (k v : String) :
    k ∈ (dictInsert m k v).map Prod.fst := by
  rw [dictInsert_keys]
  split
  · next hc => simpa using hc
  · exact List.mem_append_right _ (by simp)

/-- Invariant of the variant loop: if every accumulated size already has its
sanitized form among the accumulated keys, the same holds of the final
sizes and keys of the loop. -/
theorem variantLoop_keys_invariant (vs : List RawVariant) :
    ∀ (sizes : List String) (atc_links : List (String × String)),
      (∀ s ∈ sizes, sanitize s ∈ atc_links.map Prod.fst) →
      ∀ s ∈ (variantLoop vs sizes atc_links).1,
        sanitize s ∈ (variantLoop vs sizes atc_links).2.map Prod.fst := by
  induction vs with
  | nil =>
    intro sizes atc_links h s hs
    exact h s hs
  | cons v rest ih =>
    intro sizes atc_links h s hs
    by_cases hc : v.title.getD "" ≠ "" ∧ v.id.getD "" ≠ ""
    · rw [variantLoop_cons_keep v rest sizes atc_links hc.1 hc.2] at hs ⊢
      refine ih _ _ ?_ s hs
      intro s2 hs2
      rcases List.mem_append.mp hs2 with h1 | h1
      · exact mem_keys_dictInsert_of_mem _ _ _ _ (h s2 h1)
      · have hs2' : s2 = v.title.getD "" := by simpa using h1
        subst hs2'
        exact mem_keys_dictInsert_self _ _ _
    · rw [variantLoop_cons_skip v rest sizes atc_links hc] at hs ⊢
      exact ih _ _ h s hs

/-- A key among the keys of the map makes `dictFind` succeed. -/
theorem dictFind_isSome_of_mem_keys (m : List (String × String)) (k : String)
    (h : k ∈ m.map Prod.fst) : (dictFind m k).isSome := by
  unfold dictFind
  obtain ⟨p, hp, hpk⟩ := List.mem_map.mp h
  have hsome : (m.find? (fun p => p.1 == k)).isSome := by
    rw [List.find?_isSome]
    exact ⟨p, hp, by simp [hpk]⟩
  obtain ⟨q, hq⟩ := Option.isSome_iff_exists.mp hsome
  rw [hq]
  rfl

/-- Claim C10: every size produced by `extract_product_data` has its sanitized
form present as a key of `atc_links`, so the lookup of the sanitized size
in `atc_links` with the product URL as fallback, performed by the notifier,
always finds a cart link and never takes the fallback, whatever the
fallback is. -/
theorem atc_lookup_never_falls_back (p : RawProduct) (s : String)
    (hs : s ∈ (extract_product_data p).sizes) :
    ∃ v, dictFind (extract_product_data p).atc_links (sanitize s) = some v ∧
      ∀ fallback, dictGet (extract_product_data p).atc_links (sanitize s) fallback = v := by
  have hsz : (extract_product_data p).sizes = (variantLoop p.variants [] []).1 := rfl
  have hat : (extract_product_data p).atc_links = (variantLoop p.variants [] []).2 := rfl
  rw [hsz] at hs
  rw [hat]
  have hkey := variantLoop_keys_invariant p.variants [] []
    (by intro s2 hs2; cases hs2) s hs
  have hfind := dictFind_isSome_of_mem_keys _ _ hkey
  obtain ⟨v, hv⟩ := Option.isSome_iff_exists.mp hfind
  refine ⟨v, hv, fun fallback => ?_⟩
  unfold dictGet
  rw [hv]

/-- Witness for C10 at a concrete product with one dotted size. -/
theorem atc_lookup_never_falls_back_witness :
    ∃ v, dictFind (extract_product_data
        { id := some 1, handle := some "shoe", title := some "Shoe",
          images := [],
          variants := [{ title := some "10.5", id := some "123", price := some "5.00" }]
        }).atc_links (sanitize "10.5") = some v ∧
      ∀ fallback, dictGet (extract_product_data
        { id := some 1, handle := some "shoe", title := some "Shoe",
          images := [],
          variants := [{ title := some "10.5", id := some "123", price := some "5.00" }]
        }).atc_links (sanitize "10.5") fallback = v :=
  atc_lookup_never_falls_back _ "10.5" (by decide)
